import Mathlib

/-!
Verification of the NetworkManager keyfile-plugin persistence subsystem.

This file gives a shallow embedding of the connection-profile persistence
code (the keyfile writer `_internal_write_connection` in
`nms-keyfile-writer.c`, the nmmeta sidecar codec and the permission
validator in `nms-keyfile-utils.c`, the netplan interface-name fixup pass,
and the VPN-setting data-item accessors in `nm-setting-vpn.c`) and proves
properties of the embedded definitions.

The filesystem is modelled as a list of paths (for the writer) or as a
directory of named nodes (for the sidecar codec).  External collaborators
(the glib keyfile codec, libnetplan, `chown`, `stat`) are represented by
explicit outcome records or function parameters; each spot is commented.
-/

namespace NMKeyfile

/-! ### Generic association-list lemmas -/

/-- Looking for a key in a list from which every pair with that key
has been filtered out finds nothing. -/
theorem find?_filter_ne_key {α β : Type} [BEq α] (key : α) (l : List (α × β)) :
    (l.filter (fun ent => ent.1 != key)).find? (fun ent => ent.1 == key) = none := by
  rw [List.find?_eq_none]
  intro x hx h
  have hf := (List.mem_filter.1 hx).2
  simp only [bne] at hf
  rw [h] at hf
  simp at hf

/-! ### Filesystem abstraction for the writer: the set of existing file
paths, as a list of strings.  `fsAdd` models creating (or atomically
replacing) a file, `fsDel` models `unlink`. -/

abbrev FS := List String

def fsHas (fs : FS) (p : String) : Bool := fs.contains p

def fsAdd (p : String) (fs : FS) : FS := if fsHas fs p then fs else p :: fs

def fsDel (p : String) (fs : FS) : FS := fs.filter (fun q => q != p)

theorem fsHas_fsAdd (p q : String) (fs : FS) :
    fsHas (fsAdd p fs) q = (q == p || fsHas fs q) := by
  rw [Bool.eq_iff_iff]
  unfold fsAdd
  cases hp : fsHas fs p with
  | true =>
    simp only [if_true]
    simp only [fsHas] at hp ⊢
    simp only [List.contains, List.elem_eq_mem, decide_eq_true_iff] at hp ⊢
    constructor
    · intro h; simp [h]
    · intro h
      rcases (Bool.or_eq_true _ _).mp h with h1 | h2
      · exact (eq_of_beq h1) ▸ hp
      · exact of_decide_eq_true h2
  | false =>
    simp [fsHas]

theorem fsHas_fsDel (p q : String) (fs : FS) :
    fsHas (fsDel p fs) q = (!(q == p) && fsHas fs q) := by
  rw [Bool.eq_iff_iff]
  simp [fsHas, fsDel, List.mem_filter, and_comm]

theorem fsHas_fsDel_self (p : String) (fs : FS) : fsHas (fsDel p fs) p = false := by
  simp [fsHas_fsDel]

theorem fsHas_fsDel_ne (p q : String) (fs : FS) (h : q ≠ p) :
    fsHas (fsDel p fs) q = fsHas fs q := by
  simp [fsHas_fsDel, h]

theorem fsHas_fsAdd_self (p : String) (fs : FS) : fsHas (fsAdd p fs) p = true := by
  simp [fsHas_fsAdd]

theorem fsHas_fsAdd_ne (p q : String) (fs : FS) (h : q ≠ p) :
    fsHas (fsAdd p fs) q = fsHas fs q := by
  simp [fsHas_fsAdd, h]

/-! ### Filename allocator

Embedding of the path-selection loop of `_internal_write_connection`
(`nms-keyfile-writer.c`, the `for (i_path = -2; i_path < 10000; i_path++)`
loop).  The loop index `i_path ∈ [-2, 10000)` is shifted to a natural
number `n = i_path + 2 ∈ [0, 10002)`.

External inputs that the loop consumes are passed as parameters:
`escape` stands for `nm_keyfile_utils_create_filename` (defined outside
the provided sources; the loop only applies it), `fsExists` for
`g_file_test (..., G_FILE_TEST_EXISTS)`, and `allow` for the optional
`allow_filename_cb`.  The boolean `existing_in_keyfile_dir` stands for
the result of `nm_utils_file_is_in_path (existing_path, keyfile_dir)`. -/

structure Env where
  keyfile_dir : String
  id : String
  uuid : String
  existing_path : Option String
  existing_path_read_only : Bool
  force_rename : Bool
  existing_in_keyfile_dir : Bool
  is_volatile : Bool
  verify_requested : Bool
  ifname : Option String
  escaped_ssid : Option String
  rootdir : String
  netplan_id_extracted : Bool
deriving DecidableEq, Repr

/-- `rename = force_rename || existing_path_read_only
|| (existing_path && !nm_utils_file_is_in_path (existing_path, keyfile_dir))`. -/
def renameFlag (e : Env) : Bool :=
  e.force_rename || e.existing_path_read_only
    || (e.existing_path.isSome && !e.existing_in_keyfile_dir)

/-- The candidate generated at loop index `n` (`i_path = n - 2`):
`existing_path` (skipped when absent or `rename`), then
`keyfile_dir/escape(id)`, then `keyfile_dir/escape(id-uuid)`, then
`keyfile_dir/escape(id-uuid-N)` for `N = n - 2 ≥ 1`. -/
def candidateAt (e : Env) (escape : String → String) (n : Nat) : Option String :=
  if n = 0 then
    match e.existing_path with
    | some p => if renameFlag e then none else some p
    | none => none
  else if n = 1 then
    some (e.keyfile_dir ++ "/" ++ escape e.id)
  else if n = 2 then
    some (e.keyfile_dir ++ "/" ++ escape (e.id ++ "-" ++ e.uuid))
  else
    some (e.keyfile_dir ++ "/" ++ escape (e.id ++ "-" ++ e.uuid ++ "-" ++ toString (n - 2)))

/-- The per-candidate acceptance test of the loop body: reject when the
candidate equals `existing_path` while `rename` holds, when the
`allow_filename_cb` refuses it, or when (not being `existing_path`
itself) a file already exists at it. -/
def acceptPath (e : Env) (fsExists : String → Bool) (allow : Option (String → Bool))
    (c : String) : Bool :=
  let isExisting : Bool := e.existing_path == some c
  let allowRejects : Bool :=
    match allow with
    | some f => !(f c)
    | none => false
  if isExisting && renameFlag e then false
  else if allowRejects then false
  else if !isExisting && fsExists c then false
  else true

/-- The loop itself: try candidates from index `n` on, for `fuel` more
iterations, returning the first accepted candidate. -/
def findPathFrom (e : Env) (escape : String → String) (fsExists : String → Bool)
    (allow : Option (String → Bool)) : Nat → Nat → Option String
  | _, 0 => none
  | n, fuel + 1 =>
    match candidateAt e escape n with
    | none => findPathFrom e escape fsExists allow (n + 1) fuel
    | some c =>
      if acceptPath e fsExists allow c then some c
      else findPathFrom e escape fsExists allow (n + 1) fuel

/-- The loop runs `i_path` from -2 up to (excluding) 10000: 10002 indices. -/
def pathLoopCount : Nat := 10002

def selectPath (e : Env) (escape : String → String) (fsExists : String → Bool)
    (allow : Option (String → Bool)) : Option String :=
  findPathFrom e escape fsExists allow 0 pathLoopCount

/-- The ordered candidate sequence the loop enumerates, starting at
index `n` for `fuel` indices. -/
def candListFrom (e : Env) (escape : String → String) : Nat → Nat → List String
  | _, 0 => []
  | n, fuel + 1 =>
    match candidateAt e escape n with
    | none => candListFrom e escape (n + 1) fuel
    | some c => c :: candListFrom e escape (n + 1) fuel

/-- The full ordered candidate sequence of one allocator run. -/
def candidateList (e : Env) (escape : String → String) : List String :=
  candListFrom e escape 0 pathLoopCount

theorem findPathFrom_eq_find? (e : Env) (escape : String → String)
    (fsExists : String → Bool) (allow : Option (String → Bool)) :
    ∀ (fuel n : Nat),
      findPathFrom e escape fsExists allow n fuel
        = (candListFrom e escape n fuel).find? (acceptPath e fsExists allow) := by
  intro fuel
  induction fuel with
  | zero => intro n; rfl
  | succ m ih =>
    intro n
    show (match candidateAt e escape n with
          | none => findPathFrom e escape fsExists allow (n + 1) m
          | some c =>
            if acceptPath e fsExists allow c then some c
            else findPathFrom e escape fsExists allow (n + 1) m)
        = _
    cases h : candidateAt e escape n with
    | none =>
      simp only [candListFrom, h, ih]
    | some c =>
      simp only [candListFrom, h, List.find?_cons]
      cases hc : acceptPath e fsExists allow c with
      | true => simp
      | false => simpa using ih (n + 1)

theorem selectPath_eq_find? (e : Env) (escape : String → String)
    (fsExists : String → Bool) (allow : Option (String → Bool)) :
    selectPath e escape fsExists allow
      = (candidateList e escape).find? (acceptPath e fsExists allow) :=
  findPathFrom_eq_find? e escape fsExists allow pathLoopCount 0

/-- A freshly allocated path for a profile with no prior `existing_path`
does not exist on the filesystem yet. -/
theorem selectPath_fresh (e : Env) (escape : String → String) (fs : FS)
    (allow : Option (String → Bool)) (p : String)
    (hne : e.existing_path = none)
    (h : selectPath e escape (fsHas fs) allow = some p) :
    fsHas fs p = false := by
  rw [selectPath_eq_find?] at h
  have hacc : acceptPath e (fsHas fs) allow p = true := by
    have := List.find?_some h
    exact this
  unfold acceptPath at hacc
  rw [hne] at hacc
  simp only [Option.isSome_none] at hacc
  cases hfs : fsHas fs p with
  | false => rfl
  | true =>
    rw [hfs] at hacc
    simp at hacc

/-! ### Sequential writes

A sequence of profile writes into one directory, as observed by the path
allocator: each successful write creates a file at the path the
allocator returned (`nm_utils_file_set_contents`), so subsequent
allocations see it as existing. -/

def runWrites (escape : String → String) (allow : Option (String → Bool)) :
    FS → List Env → List (Option String)
  | _, [] => []
  | fs, e :: es =>
    match selectPath e escape (fsHas fs) allow with
    | none => none :: runWrites escape allow fs es
    | some p => some p :: runWrites escape allow (fsAdd p fs) es

/-! ### Profile writer pipeline

Embedding of `_internal_write_connection` after serialization, in the
code's own order: re-read self-check (only when the caller asked for
`out_reread`/`out_reread_same`), `nm_utils_file_set_contents`, `chown`
(deleting the file and failing on error), deletion of the old path on a
rename, and — for non-volatile profiles — the netplan projection.

Fallible external calls are represented by booleans in `Outcomes`:
`serialize_ok` for `nm_keyfile_write`/`g_key_file_to_data`, `reread1_ok`
and `reread2_ok` for the two read-back checks, `set_contents_ok` for
`nm_utils_file_set_contents`, `chown_ok` for `chown`, `parse_ok` for
`netplan_parser_load_keyfile`, `netdef_found_by_id` and
`netdef_found_by_ifname` for the two `netplan_state_get_netdef`
lookups, and `generate_ok` for `netplan_generate`; `generated_paths`
are the files the external generator (re)creates under its run
directory.  `netplan_netdef_write_yaml` writes to the external store's
own tree and its result is not checked by the code, so it has no
outcome bit; the external yaml tree (other than the fixed legacy path
that the code unlinks) is not tracked in `FS`. -/

inductive WriteError
  | serializeFailed
  | allocExhausted
  | verifyFailed
  | writeFailed
  | chownFailed
  | translationFailed
  | netdefNotFound
  | generateFailed
deriving DecidableEq, Repr

structure Outcomes where
  serialize_ok : Bool
  reread1_ok : Bool
  set_contents_ok : Bool
  chown_ok : Bool
  parse_ok : Bool
  netdef_found_by_id : Bool
  netdef_found_by_ifname : Bool
  generate_ok : Bool
  reread2_ok : Bool
  generated_paths : List String
deriving DecidableEq, Repr

/-- `nm_utils_file_set_contents (path, ..., 0600, ...)` followed by
`chown (path, owner_uid, owner_grp)`; a failed atomic write leaves no
file, a failed chown unlinks the just-written file. -/
def writeMainFile (o : Outcomes) (path : String) (fs : FS) : FS × Option WriteError :=
  if !o.set_contents_ok then (fs, some .writeFailed)
  else
    let fs1 := fsAdd path fs
    if !o.chown_ok then (fsDel path fs1, some .chownFailed)
    else (fs1, none)

/-- `if (existing_path && !existing_path_read_only && !nm_streq (path, existing_path))
unlink (existing_path);` -/
def cleanupOldPath (e : Env) (path : String) (fs : FS) : FS :=
  match e.existing_path with
  | some old =>
    if !e.existing_path_read_only && path != old then fsDel old fs else fs
  | none => fs

/-- The fixed well-known path of the legacy netplan artifact,
`/etc/netplan/NM-<uuid>.yaml`. -/
def legacyNetplanPath (uuid : String) : String :=
  "/etc/netplan/NM-" ++ uuid ++ ".yaml"

/-- `<rootdir>/run/NetworkManager/system-connections` (a NULL rootdir
prints as the empty string). -/
def netplanRunDir (rootdir : String) : String :=
  rootdir ++ "/run/NetworkManager/system-connections"

/-- The final path reported back by the netplan projection: the old
`existing_path` verbatim on an update, else the `netplan-NM-<uuid>`
path under the run directory (SSID-qualified variant first, falling
back to the resolved netplan id when that file does not exist). -/
def netplanFinalPath (e : Env) (o : Outcomes) (fs : FS) : String :=
  match e.existing_path with
  | some old => old
  | none =>
    let firstTry :=
      match e.escaped_ssid with
      | some s => netplanRunDir e.rootdir ++ "/netplan-NM-" ++ e.uuid ++ "-" ++ s
          ++ ".nmconnection"
      | none => netplanRunDir e.rootdir ++ "/netplan-NM-" ++ e.uuid ++ ".nmconnection"
    if fsHas fs firstTry then firstTry
    else
      -- `actual_netplan_id`: the id the netdef was found under; glib's
      -- printf renders a NULL interface name as "(null)".
      let actual :=
        if o.netdef_found_by_id then "NM-" ++ e.uuid
        else match e.ifname with
             | some s => s
             | none => "(null)"
      match e.escaped_ssid with
      | some s => netplanRunDir e.rootdir ++ "/netplan-" ++ actual ++ "-" ++ s
          ++ ".nmconnection"
      | none => netplanRunDir e.rootdir ++ "/netplan-" ++ actual ++ ".nmconnection"

/-- The netdef lookup: `netplan_state_get_netdef (np_state, netplan_id)`,
falling back to a lookup by interface name.  `ifname` is only assigned in
the `!netplan_id` branch of the code, so with an extracted netplan id the
fallback lookup runs on a NULL name and cannot succeed. -/
def netdefFound (e : Env) (o : Outcomes) : Bool :=
  o.netdef_found_by_id
    || ((!(e.netplan_id_extracted && e.existing_path.isSome) && e.ifname.isSome)
        && o.netdef_found_by_ifname)

/-- The netplan projection of `_internal_write_connection` (the
`if (!is_volatile)` block): copy the new content over the prior netplan
artifact when a netplan id could be extracted from `existing_path`,
parse the keyfile with libnetplan, look the netdef up by
`NM-<uuid>`/extracted id and then by interface name, write the netdef's
yaml, drop the legacy artifact, unlink the plain keyfile, run
`netplan_generate`, run the interface-name fixup pass (which rewrites
file contents but neither creates nor deletes files), and compute the
final path. -/
def projectToNetplan (e : Env) (o : Outcomes) (path : String) (fs : FS) :
    FS × Except WriteError String :=
  -- `netplan_id` extraction needs an `existing_path` that contains
  -- "system-connections/netplan-" and a successful
  -- `netplan_get_id_from_nm_filepath`; both are folded into the
  -- environment bit `netplan_id_extracted`.
  let fs1 :=
    match e.existing_path with
    | some old => if e.netplan_id_extracted then fsAdd old fs else fs
    | none => fs
  if !o.parse_ok then (fs1, .error .translationFailed)
  else if !netdefFound e o then (fs1, .error .netdefNotFound)
    else
      let fs2 := fsDel (legacyNetplanPath e.uuid) fs1
      let fs3 := fsDel path fs2
      if !o.generate_ok then (fs3, .error .generateFailed)
      else
        let fs4 := o.generated_paths.foldr fsAdd fs3
        (fs4, .ok (netplanFinalPath e o fs4))

/-- `_internal_write_connection`, from serialization to the final
result, threading the filesystem state. -/
def internal_write_connection (e : Env) (escape : String → String)
    (allow : Option (String → Bool)) (o : Outcomes) (fs : FS) :
    FS × Except WriteError String :=
  if !o.serialize_ok then (fs, .error .serializeFailed)
  else
    match selectPath e escape (fsHas fs) allow with
    | none => (fs, .error .allocExhausted)
    | some path =>
      if e.verify_requested && !o.reread1_ok then (fs, .error .verifyFailed)
      else
        match writeMainFile o path fs with
        | (fs1, some err) => (fs1, .error err)
        | (fs1, none) =>
          let fs2 := cleanupOldPath e path fs1
          if e.is_volatile then (fs2, .ok path)
          else
            match projectToNetplan e o path fs2 with
            | (fs3, .error err) => (fs3, .error err)
            | (fs3, .ok finalPath) =>
              if e.verify_requested && !o.reread2_ok then (fs3, .error .verifyFailed)
              else (fs3, .ok finalPath)

/-- Every path handed out to a sequence of fresh-profile writes (no
`existing_path`) is new at its time of allocation, and the successful
results are pairwise distinct. -/
theorem runWrites_fresh_nodup (escape : String → String) (allow : Option (String → Bool)) :
    ∀ (es : List Env) (fs : FS),
      (∀ e ∈ es, e.existing_path = none) →
      (∀ p ∈ (runWrites escape allow fs es).reduceOption, fsHas fs p = false)
        ∧ ((runWrites escape allow fs es).reduceOption).Nodup := by
  intro es
  induction es with
  | nil =>
    intro fs _
    constructor
    · intro p hp
      simp [runWrites, List.reduceOption_nil] at hp
    · simp [runWrites, List.reduceOption_nil]
  | cons e es ih =>
    intro fs h
    have he : e.existing_path = none := h e (List.mem_cons_self e es)
    have hes : ∀ x ∈ es, x.existing_path = none := fun x hx => h x (List.mem_cons_of_mem _ hx)
    cases hsel : selectPath e escape (fsHas fs) allow with
    | none =>
      have hih := ih fs hes
      simp only [runWrites, hsel, List.reduceOption_cons_of_none]
      exact hih
    | some p =>
      have hfresh : fsHas fs p = false := selectPath_fresh e escape fs allow p he hsel
      have hih := ih (fsAdd p fs) hes
      simp only [runWrites, hsel, List.reduceOption_cons_of_some]
      constructor
      · intro q hq
        rcases List.mem_cons.1 hq with hq | hq
        · subst hq; exact hfresh
        · have := hih.1 q hq
          rw [fsHas_fsAdd] at this
          rcases Bool.or_eq_false_iff.mp this with ⟨_, h2⟩
          exact h2
      · rw [List.nodup_cons]
        constructor
        · intro hmem
          have := hih.1 p hmem
          rw [fsHas_fsAdd_self] at this
          exact absurd this (by simp)
        · exact hih.2

/-! ### Sample inputs used by concrete witnesses -/

def sampleDir : String := "/etc/NetworkManager/system-connections"

/-- A fresh volatile profile with no prior path. -/
def sampleEnvA : Env :=
  ⟨sampleDir, "Work WiFi", "11111111-2222-4333-8444-555555555555", none,
    false, false, false, true, false, none, none, "", false⟩

/-- A second fresh profile with the same id and a different uuid. -/
def sampleEnvB : Env :=
  ⟨sampleDir, "Work WiFi", "99999999-8888-4777-8666-555555555555", none,
    false, false, false, true, false, none, none, "", false⟩

def sampleOutcomesOk : Outcomes :=
  ⟨true, true, true, true, true, true, true, true, true, []⟩

/-- An `allow_filename_cb` that refuses every candidate. -/
def rejectAll : Option (String → Bool) := some (fun _ => false)

/-- C1: The filename allocator picks the first candidate of the fixed
ordered sequence (`existing_path` when given and reusable, then
`escape(id)`, then `escape(id-uuid)`, then `escape(id-uuid-N)` for
N = 1, 2, ...) that is not rejected; a candidate is rejected when it
equals `existing_path` while a rename is forced, when the accept
callback refuses it, or when (not being exactly `existing_path`) a file
already exists at it.  Consequently successive writes of profiles with
no prior path into one directory receive pairwise distinct paths from
that sequence. -/
theorem allocator_first_fit_and_distinct_paths :
    (∀ (e : Env) (escape : String → String) (fsExists : String → Bool)
        (allow : Option (String → Bool)),
        selectPath e escape fsExists allow
          = (candidateList e escape).find? (acceptPath e fsExists allow))
    ∧ (∀ (escape : String → String) (allow : Option (String → Bool))
        (fs : FS) (es : List Env),
        (∀ e ∈ es, e.existing_path = none) →
        ((runWrites escape allow fs es).reduceOption).Nodup) :=
  ⟨fun e escape fsExists allow => selectPath_eq_find? e escape fsExists allow,
    fun escape allow fs es h => (runWrites_fresh_nodup escape allow es fs h).2⟩

/-- Witness for C1: two writes of profiles sharing the id "Work WiFi"
with distinct UUIDs get the paths `Work WiFi` and
`Work WiFi-<uuid>` (under the identity escaping), which are distinct. -/
theorem allocator_first_fit_and_distinct_paths_witness :
    ([sampleEnvA, sampleEnvB].all (fun e => e.existing_path.isNone)) = true
      ∧ runWrites (fun s => s) none [] [sampleEnvA, sampleEnvB]
          = [some "/etc/NetworkManager/system-connections/Work WiFi",
             some ("/etc/NetworkManager/system-connections/Work WiFi-"
               ++ "99999999-8888-4777-8666-555555555555")]
      ∧ ((runWrites (fun s => s) none [] [sampleEnvA, sampleEnvB]).reduceOption).Nodup := by
  refine ⟨by decide, by decide, ?_⟩
  exact allocator_first_fit_and_distinct_paths.2 (fun s => s) none []
    [sampleEnvA, sampleEnvB] (by decide)

theorem candListFrom_length_le (e : Env) (escape : String → String) :
    ∀ (fuel n : Nat), (candListFrom e escape n fuel).length ≤ fuel := by
  intro fuel
  induction fuel with
  | zero => intro n; simp [candListFrom]
  | succ m ih =>
    intro n
    show (match candidateAt e escape n with
          | none => candListFrom e escape (n + 1) m
          | some c => c :: candListFrom e escape (n + 1) m).length ≤ m + 1
    cases h : candidateAt e escape n with
    | none => exact Nat.le_succ_of_le (ih (n + 1))
    | some c => simpa using Nat.succ_le_succ (ih (n + 1))

/-- C7: The allocator's search is bounded: it enumerates at most 10002
candidates (the loop runs `i_path` from -2 below 10000, so suffixed
candidates stop below N = 10000); if every candidate is rejected the
selection comes back empty and the writer fails with the fatal
allocation error instead of looping or succeeding. -/
theorem allocator_bounded_search :
    (∀ (e : Env) (escape : String → String),
        (candidateList e escape).length ≤ 10002)
    ∧ (∀ (e : Env) (escape : String → String) (fsExists : String → Bool)
        (allow : Option (String → Bool)),
        (∀ c ∈ candidateList e escape, acceptPath e fsExists allow c = false) →
        selectPath e escape fsExists allow = none)
    ∧ (∀ (e : Env) (escape : String → String) (allow : Option (String → Bool))
        (o : Outcomes) (fs : FS),
        selectPath e escape (fsHas fs) allow = none →
        o.serialize_ok = true →
        internal_write_connection e escape allow o fs = (fs, .error .allocExhausted)) := by
  refine ⟨?_, ?_, ?_⟩
  · intro e escape
    exact candListFrom_length_le e escape pathLoopCount 0
  · intro e escape fsExists allow h
    rw [selectPath_eq_find?, List.find?_eq_none]
    intro c hc
    simp [h c hc]
  · intro e escape allow o fs hsel hser
    unfold internal_write_connection
    rw [hsel]
    simp [hser]

/-- Witness for C7: with an accept callback that refuses everything, the
allocation comes back empty and the write fails with the allocation
error. -/
theorem allocator_bounded_search_witness :
    (candidateList sampleEnvA (fun s => s)).length ≤ 10002
      ∧ selectPath sampleEnvA (fun s => s) (fsHas []) rejectAll = none
      ∧ internal_write_connection sampleEnvA (fun s => s) rejectAll sampleOutcomesOk []
          = ([], .error .allocExhausted) := by
  have hall : ∀ (fsE : String → Bool),
      ∀ c ∈ candidateList sampleEnvA (fun s => s),
        acceptPath sampleEnvA fsE rejectAll c = false := by
    intro fsE c _
    simp [acceptPath, rejectAll]
  have hsel := allocator_bounded_search.2.1 sampleEnvA (fun s => s) (fsHas []) rejectAll
    (hall (fsHas []))
  exact ⟨allocator_bounded_search.1 sampleEnvA (fun s => s), hsel,
    allocator_bounded_search.2.2 sampleEnvA (fun s => s) rejectAll sampleOutcomesOk [] hsel rfl⟩

/-- C2: If the `chown` of the just-written profile file fails, the
writer unlinks the newly written file and the whole write returns an
error: after a chown failure, the new file does not remain on disk. -/
theorem chown_failure_removes_new_file (e : Env) (escape : String → String)
    (allow : Option (String → Bool)) (o : Outcomes) (fs : FS) (p : String)
    (hser : o.serialize_ok = true)
    (hsel : selectPath e escape (fsHas fs) allow = some p)
    (hver : (e.verify_requested && !o.reread1_ok) = false)
    (hw : o.set_contents_ok = true)
    (hc : o.chown_ok = false) :
    (internal_write_connection e escape allow o fs).2 = .error .chownFailed
      ∧ fsHas (internal_write_connection e escape allow o fs).1 p = false := by
  unfold internal_write_connection writeMainFile
  rw [hsel]
  simp [hser, hver, hw, hc, fsHas_fsDel_self]

def outcomesChownFail : Outcomes :=
  ⟨true, true, true, false, true, true, true, true, true, []⟩

/-- Witness for C2: a concrete write whose chown fails errors out and
leaves no file at the allocated path. -/
theorem chown_failure_removes_new_file_witness :
    (internal_write_connection sampleEnvA (fun s => s) none outcomesChownFail []).2
        = .error .chownFailed
      ∧ fsHas (internal_write_connection sampleEnvA (fun s => s) none outcomesChownFail []).1
          "/etc/NetworkManager/system-connections/Work WiFi" = false :=
  chown_failure_removes_new_file sampleEnvA (fun s => s) none outcomesChownFail []
    "/etc/NetworkManager/system-connections/Work WiFi" rfl (by decide) rfl rfl rfl

/-- C6: When an update selects a path different from the prior
`existing_path` and that old path is not read-only, the writer deletes
the old path — and only after the new file was successfully written and
chowned: a successful (volatile) write ends with the old path gone,
while a failure at serialization, path selection, the self-check, or
content writing leaves the filesystem — the old file included —
untouched. -/
theorem rename_deletes_old_path_only_after_write :
    (∀ (e : Env) (path old : String) (fs : FS),
        e.existing_path = some old →
        e.existing_path_read_only = false →
        path ≠ old →
        fsHas (cleanupOldPath e path fs) old = false)
    ∧ (∀ (e : Env) (escape : String → String) (allow : Option (String → Bool))
        (o : Outcomes) (fs : FS) (path old : String),
        e.existing_path = some old →
        e.existing_path_read_only = false →
        e.is_volatile = true →
        o.serialize_ok = true →
        selectPath e escape (fsHas fs) allow = some path →
        (e.verify_requested && !o.reread1_ok) = false →
        o.set_contents_ok = true →
        o.chown_ok = true →
        path ≠ old →
        (internal_write_connection e escape allow o fs).2 = .ok path
          ∧ fsHas (internal_write_connection e escape allow o fs).1 old = false)
    ∧ (∀ (e : Env) (escape : String → String) (allow : Option (String → Bool))
        (o : Outcomes) (fs : FS),
        (o.serialize_ok = false
          ∨ selectPath e escape (fsHas fs) allow = none
          ∨ (e.verify_requested && !o.reread1_ok) = true
          ∨ o.set_contents_ok = false) →
        (internal_write_connection e escape allow o fs).1 = fs) := by
  refine ⟨?_, ?_, ?_⟩
  · intro e path old fs he hro hne
    unfold cleanupOldPath
    rw [he]
    have hb : (path != old) = true := bne_iff_ne.mpr hne
    simp [hro, hb, fsHas_fsDel_self]
  · intro e escape allow o fs path old he hro hvol hser hsel hver hw hc hne
    unfold internal_write_connection writeMainFile cleanupOldPath
    rw [hsel, he]
    have hb : (path != old) = true := bne_iff_ne.mpr hne
    simp [hser, hver, hw, hc, hvol, hro, hb, fsHas_fsDel_self]
  · intro e escape allow o fs hd
    unfold internal_write_connection
    cases hser : o.serialize_ok with
    | false => simp
    | true =>
      cases hsel : selectPath e escape (fsHas fs) allow with
      | none => simp
      | some p =>
        cases hver : (e.verify_requested && !o.reread1_ok) with
        | true => simp
        | false =>
          have hw : o.set_contents_ok = false := by
            rcases hd with h | h | h | h
            · rw [hser] at h; exact absurd h (by simp)
            · rw [hsel] at h; exact absurd h (by simp)
            · rw [hver] at h; exact absurd h (by simp)
            · exact h
          simp [writeMainFile, hw]

def sampleOldPath : String :=
  "/etc/NetworkManager/system-connections/old-profile.nmconnection"

/-- An update of a profile that previously lived at `sampleOldPath`,
with `force_rename` set so the allocator must pick a fresh name. -/
def sampleEnvUpd : Env :=
  ⟨sampleDir, "eth0 Work", "22222222-3333-4444-8555-666666666666", some sampleOldPath,
    false, true, true, true, false, none, none, "", false⟩

def outcomesWriteFail : Outcomes :=
  ⟨true, true, false, true, true, true, true, true, true, []⟩

/-- Witness for C6: a concrete rename-update deletes the old file on
success; the same update with a failing content write leaves the
filesystem untouched. -/
theorem rename_deletes_old_path_only_after_write_witness :
    fsHas (cleanupOldPath sampleEnvUpd "/etc/NetworkManager/system-connections/eth0 Work"
        [sampleOldPath]) sampleOldPath = false
      ∧ ((internal_write_connection sampleEnvUpd (fun s => s) none sampleOutcomesOk
            [sampleOldPath]).2 = .ok "/etc/NetworkManager/system-connections/eth0 Work"
          ∧ fsHas (internal_write_connection sampleEnvUpd (fun s => s) none sampleOutcomesOk
              [sampleOldPath]).1 sampleOldPath = false)
      ∧ (internal_write_connection sampleEnvUpd (fun s => s) none outcomesWriteFail
            [sampleOldPath]).1 = [sampleOldPath] :=
  ⟨rename_deletes_old_path_only_after_write.1 sampleEnvUpd
      "/etc/NetworkManager/system-connections/eth0 Work" sampleOldPath [sampleOldPath]
      rfl rfl (by decide),
    rename_deletes_old_path_only_after_write.2.1 sampleEnvUpd (fun s => s) none
      sampleOutcomesOk [sampleOldPath] "/etc/NetworkManager/system-connections/eth0 Work"
      sampleOldPath rfl rfl rfl rfl (by decide) rfl rfl rfl (by decide),
    rename_deletes_old_path_only_after_write.2.2 sampleEnvUpd (fun s => s) none
      outcomesWriteFail [sampleOldPath] (Or.inr (Or.inr (Or.inr rfl)))⟩

/-! ### C3: what the netplan projection does with the plain-text file -/

theorem fsHas_fsAdd_mono (p q : String) (fs : FS) (h : fsHas fs p = true) :
    fsHas (fsAdd q fs) p = true := by
  rw [fsHas_fsAdd, h]
  simp

theorem fsHas_cleanupOldPath_path (e : Env) (path : String) (fs : FS)
    (h : fsHas fs path = true) : fsHas (cleanupOldPath e path fs) path = true := by
  unfold cleanupOldPath
  cases e.existing_path with
  | none => exact h
  | some old =>
    dsimp only
    by_cases hg : (!e.existing_path_read_only && path != old) = true
    · rw [if_pos hg]
      have hne : path ≠ old := bne_iff_ne.mp ((Bool.and_eq_true _ _).mp hg).2
      rw [fsHas_fsDel_ne _ _ _ hne]
      exact h
    · rw [if_neg hg]
      exact h

/-- A translation (libnetplan parse) failure reports an error and leaves
the plain-text keyfile in place. -/
theorem projectToNetplan_translationFailed (e : Env) (o : Outcomes) (path : String)
    (fs : FS) (hp : o.parse_ok = false) (h : fsHas fs path = true) :
    (projectToNetplan e o path fs).2 = .error .translationFailed
      ∧ fsHas (projectToNetplan e o path fs).1 path = true := by
  unfold projectToNetplan
  simp only [hp, Bool.not_false, if_true]
  refine ⟨by trivial, ?_⟩
  cases e.existing_path with
  | none => simpa using h
  | some old =>
    cases e.netplan_id_extracted with
    | true => simpa using fsHas_fsAdd_mono path old fs h
    | false => simpa using h

/-- A netdef-lookup failure reports an error and leaves the plain-text
keyfile in place. -/
theorem projectToNetplan_netdefNotFound (e : Env) (o : Outcomes) (path : String)
    (fs : FS) (hp : o.parse_ok = true) (hf : netdefFound e o = false)
    (h : fsHas fs path = true) :
    (projectToNetplan e o path fs).2 = .error .netdefNotFound
      ∧ fsHas (projectToNetplan e o path fs).1 path = true := by
  unfold projectToNetplan
  simp only [hp, hf, Bool.not_true, Bool.not_false, if_true, if_false]
  refine ⟨by trivial, ?_⟩
  cases e.existing_path with
  | none => simpa using h
  | some old =>
    cases e.netplan_id_extracted with
    | true => simpa using fsHas_fsAdd_mono path old fs h
    | false => simpa using h

/-- A `netplan_generate` failure reports an error, and at that point the
plain-text keyfile has already been unlinked. -/
theorem projectToNetplan_generateFailed (e : Env) (o : Outcomes) (path : String)
    (fs : FS) (hp : o.parse_ok = true) (hf : netdefFound e o = true)
    (hg : o.generate_ok = false) :
    (projectToNetplan e o path fs).2 = .error .generateFailed
      ∧ fsHas (projectToNetplan e o path fs).1 path = false := by
  unfold projectToNetplan
  simp only [hp, hf, hg, Bool.not_true, Bool.not_false, if_true, if_false]
  exact ⟨by trivial, fsHas_fsDel_self _ _⟩

/-- A non-volatile write that passes serialization, path selection, the
self-check, the content write and the chown continues into the netplan
projection applied to the filesystem after the rename cleanup. -/
theorem internal_write_eq_project (e : Env) (escape : String → String)
    (allow : Option (String → Bool)) (o : Outcomes) (fs : FS) (path : String)
    (hser : o.serialize_ok = true)
    (hsel : selectPath e escape (fsHas fs) allow = some path)
    (hver : (e.verify_requested && !o.reread1_ok) = false)
    (hw : o.set_contents_ok = true)
    (hc : o.chown_ok = true)
    (hvol : e.is_volatile = false) :
    internal_write_connection e escape allow o fs
      = (match projectToNetplan e o path (cleanupOldPath e path (fsAdd path fs)) with
         | (fs3, .error err) => (fs3, .error err)
         | (fs3, .ok finalPath) =>
           if e.verify_requested && !o.reread2_ok then (fs3, .error .verifyFailed)
           else (fs3, .ok finalPath)) := by
  unfold internal_write_connection writeMainFile
  rw [hsel]
  simp [hser, hver, hw, hc, hvol]

/-- C3 (amended): For every non-volatile profile write that reaches the
external-store projection step, a failure of the translation,
definition-lookup, or regeneration sub-step makes the whole write report
failure; but the plain-text file written in the Writing step has been
removed only when the failure is at the regeneration sub-step (the file
is unlinked just before `netplan_generate`): on a translation or
definition-lookup failure the plain-text file remains on disk.  (The
entry-write sub-step's result is not checked by the code at all.) -/
theorem projection_failure_reporting (e : Env) (escape : String → String)
    (allow : Option (String → Bool)) (o : Outcomes) (fs : FS) (path : String)
    (hser : o.serialize_ok = true)
    (hsel : selectPath e escape (fsHas fs) allow = some path)
    (hver : (e.verify_requested && !o.reread1_ok) = false)
    (hw : o.set_contents_ok = true)
    (hc : o.chown_ok = true)
    (hvol : e.is_volatile = false) :
    (o.parse_ok = false →
        (internal_write_connection e escape allow o fs).2 = .error .translationFailed
          ∧ fsHas (internal_write_connection e escape allow o fs).1 path = true)
    ∧ (o.parse_ok = true → netdefFound e o = false →
        (internal_write_connection e escape allow o fs).2 = .error .netdefNotFound
          ∧ fsHas (internal_write_connection e escape allow o fs).1 path = true)
    ∧ (o.parse_ok = true → netdefFound e o = true → o.generate_ok = false →
        (internal_write_connection e escape allow o fs).2 = .error .generateFailed
          ∧ fsHas (internal_write_connection e escape allow o fs).1 path = false) := by
  rw [internal_write_eq_project e escape allow o fs path hser hsel hver hw hc hvol]
  have hfs2 : fsHas (cleanupOldPath e path (fsAdd path fs)) path = true :=
    fsHas_cleanupOldPath_path e path _ (fsHas_fsAdd_self path fs)
  refine ⟨?_, ?_, ?_⟩
  · intro hp
    have h := projectToNetplan_translationFailed e o path
      (cleanupOldPath e path (fsAdd path fs)) hp hfs2
    rcases hpj : projectToNetplan e o path (cleanupOldPath e path (fsAdd path fs))
      with ⟨fs3, r⟩
    rw [hpj] at h
    rcases h with ⟨h1, h2⟩
    dsimp only at h1 h2
    subst h1
    exact ⟨rfl, h2⟩
  · intro hp hf
    have h := projectToNetplan_netdefNotFound e o path
      (cleanupOldPath e path (fsAdd path fs)) hp hf hfs2
    rcases hpj : projectToNetplan e o path (cleanupOldPath e path (fsAdd path fs))
      with ⟨fs3, r⟩
    rw [hpj] at h
    rcases h with ⟨h1, h2⟩
    dsimp only at h1 h2
    subst h1
    exact ⟨rfl, h2⟩
  · intro hp hf hg
    have h := projectToNetplan_generateFailed e o path
      (cleanupOldPath e path (fsAdd path fs)) hp hf hg
    rcases hpj : projectToNetplan e o path (cleanupOldPath e path (fsAdd path fs))
      with ⟨fs3, r⟩
    rw [hpj] at h
    rcases h with ⟨h1, h2⟩
    dsimp only at h1 h2
    subst h1
    exact ⟨rfl, h2⟩

/-- A non-volatile profile headed for the netplan projection. -/
def envProj : Env :=
  ⟨sampleDir, "eth1", "33333333-4444-4555-8666-777777777777", none,
    false, false, false, false, false, some "eth1", none, "", false⟩

def outcomesParseFail : Outcomes :=
  ⟨true, true, true, true, false, true, true, true, true, []⟩

/-- Counterexample for C3 as stated: on a translation failure the whole
write is reported failed, yet the plain-text file written in the Writing
step is STILL on disk — it is not removed on every projection failure. -/
theorem projection_translation_failure_keeps_plain_file :
    (internal_write_connection envProj (fun s => s) none outcomesParseFail []).2
        = .error .translationFailed
      ∧ fsHas (internal_write_connection envProj (fun s => s) none outcomesParseFail []).1
          "/etc/NetworkManager/system-connections/eth1" = true := by
  exact ⟨rfl, rfl⟩

def outcomesGenerateFail : Outcomes :=
  ⟨true, true, true, true, true, true, true, false, true, []⟩

/-- Witness for C3 (amended): at a concrete non-volatile write, a parse
failure leaves the plain file; a generate failure removes it. -/
theorem projection_failure_reporting_witness :
    ((internal_write_connection envProj (fun s => s) none outcomesParseFail []).2
        = .error .translationFailed
      ∧ fsHas (internal_write_connection envProj (fun s => s) none outcomesParseFail []).1
          "/etc/NetworkManager/system-connections/eth1" = true)
    ∧ ((internal_write_connection envProj (fun s => s) none outcomesGenerateFail []).2
        = .error .generateFailed
      ∧ fsHas (internal_write_connection envProj (fun s => s) none outcomesGenerateFail []).1
          "/etc/NetworkManager/system-connections/eth1" = false) :=
  ⟨(projection_failure_reporting envProj (fun s => s) none outcomesParseFail []
      "/etc/NetworkManager/system-connections/eth1" rfl (by decide) rfl rfl rfl rfl).1 rfl,
    (projection_failure_reporting envProj (fun s => s) none outcomesGenerateFail []
      "/etc/NetworkManager/system-connections/eth1" rfl (by decide) rfl rfl rfl rfl).2.2
      rfl rfl rfl⟩

/-! ### Permission/ownership validator
(`nms_keyfile_utils_check_file_permissions_stat` in
`nms-keyfile-utils.c`).  `struct stat` is reduced to the fields the
function reads: `st_mode` (type bits and permission bits, POSIX layout)
and `st_uid`.  The daemon-global inputs `nm_utils_get_testing ()`
(`NM_UTILS_TEST_NO_KEYFILE_OWNER_CHECK`) and `nm_utils_get_nm_uid ()`
become the parameters `no_owner_check` and `nm_uid`. -/

inductive NMSKeyfileFiletype
  | keyfile
  | nmmeta
deriving DecidableEq, Repr

structure StatSt where
  st_mode : Nat
  st_uid : Nat
deriving DecidableEq, Repr

/-- `S_ISREG`: `(m & 0xF000) == 0x8000`. -/
def S_ISREG (m : Nat) : Bool := (m &&& 0xF000) == 0x8000

/-- `S_ISLNK`: `(m & 0xF000) == 0xA000`. -/
def S_ISLNK (m : Nat) : Bool := (m &&& 0xF000) == 0xA000

def nms_keyfile_utils_check_file_permissions_stat (filetype : NMSKeyfileFiletype)
    (no_owner_check : Bool) (nm_uid : Nat) (st : StatSt) : Bool :=
  if filetype == .keyfile && !S_ISREG st.st_mode then false
  else if filetype == .nmmeta && !(S_ISLNK st.st_mode || S_ISREG st.st_mode) then false
  else if !no_owner_check && !(st.st_uid == 0 || st.st_uid == nm_uid) then false
  else if !no_owner_check && (S_ISREG st.st_mode && (st.st_mode &&& 0o077) != 0) then false
  else true

/-- C5: Unless the test-only override is active, the validator rejects
any file owned by a uid that is neither root nor the service uid, and
rejects any regular file with nonzero group/other permission bits; a
main content file must be a regular file, and a sidecar record must be
a regular file or a symlink, regardless of the override. -/
theorem permission_validator_rejections (nm_uid : Nat) (st : StatSt) :
    (∀ ft : NMSKeyfileFiletype, st.st_uid ≠ 0 → st.st_uid ≠ nm_uid →
        nms_keyfile_utils_check_file_permissions_stat ft false nm_uid st = false)
    ∧ (∀ ft : NMSKeyfileFiletype,
        S_ISREG st.st_mode = true → (st.st_mode &&& 0o077) ≠ 0 →
        nms_keyfile_utils_check_file_permissions_stat ft false nm_uid st = false)
    ∧ (∀ b : Bool, S_ISREG st.st_mode = false →
        nms_keyfile_utils_check_file_permissions_stat .keyfile b nm_uid st = false)
    ∧ (∀ b : Bool, S_ISREG st.st_mode = false → S_ISLNK st.st_mode = false →
        nms_keyfile_utils_check_file_permissions_stat .nmmeta b nm_uid st = false) := by
  refine ⟨?_, ?_, ?_, ?_⟩
  · intro ft h0 hn
    cases ft <;>
      simp [nms_keyfile_utils_check_file_permissions_stat, h0, hn]
  · intro ft hreg hbits
    cases ft <;>
      simp [nms_keyfile_utils_check_file_permissions_stat, hreg, hbits]
  · intro b hreg
    simp [nms_keyfile_utils_check_file_permissions_stat, hreg]
  · intro b hreg hlnk
    simp [nms_keyfile_utils_check_file_permissions_stat, hreg, hlnk]

/-- Witness for C5: a well-formed regular file (mode 0100600) owned by
uid 1000 is rejected when the service uid is 997; a mode-0100644 file
owned by root is rejected for its permission bits; a directory
(mode 040755) is rejected for both file types. -/
theorem permission_validator_rejections_witness :
    nms_keyfile_utils_check_file_permissions_stat .keyfile false 997 ⟨0o100600, 1000⟩ = false
      ∧ nms_keyfile_utils_check_file_permissions_stat .keyfile false 997 ⟨0o100644, 0⟩ = false
      ∧ nms_keyfile_utils_check_file_permissions_stat .keyfile false 997 ⟨0o040755, 0⟩ = false
      ∧ nms_keyfile_utils_check_file_permissions_stat .nmmeta false 997 ⟨0o040755, 0⟩ = false :=
  ⟨(permission_validator_rejections 997 ⟨0o100600, 1000⟩).1 .keyfile (by decide) (by decide),
    (permission_validator_rejections 997 ⟨0o100644, 0⟩).2.1 .keyfile (by decide) (by decide),
    (permission_validator_rejections 997 ⟨0o040755, 0⟩).2.2.1 false (by decide),
    (permission_validator_rejections 997 ⟨0o040755, 0⟩).2.2.2 false (by decide) (by decide)⟩

/-! ### nmmeta sidecar filename validation
(`nms_keyfile_nmmeta_check_filename` in `nms-keyfile-utils.c`),
over lists of characters. -/

/-- Modelled from the spec: the fixed nmmeta filename suffix
`NM_KEYFILE_PATH_SUFFIX_NMMETA` (defined in `nm-keyfile-internal.h`,
outside the provided sources; the sidecar format section fixes the
filename shape `<uuid><fixed-suffix>`). -/
def nmmetaSuffix : List Char := ".nmmeta".data

/-- Modelled from the spec: `nm_uuid_is_normalized` (libnm-glib-aux,
outside the provided sources): a normalized UUID is exactly 36
characters, `xxxxxxxx-xxxx-xxxx-xxxx-xxxxxxxxxxxx`, built from
lowercase hexadecimal digits with hyphens at positions 8, 13, 18, 23. -/
def nm_uuid_is_normalized (s : List Char) : Bool :=
  s.length == 36 &&
    (List.range 36).all (fun i =>
      if i == 8 || i == 13 || i == 18 || i == 23 then s.getD i ' ' == '-'
      else
        decide (48 ≤ (s.getD i ' ').toNat ∧ (s.getD i ' ').toNat ≤ 57)
          || decide (97 ≤ (s.getD i ' ').toNat ∧ (s.getD i ' ').toNat ≤ 102))

theorem nm_uuid_is_normalized_length (s : List Char)
    (h : nm_uuid_is_normalized s = true) : s.length = 36 := by
  unfold nm_uuid_is_normalized at h
  simpa using ((Bool.and_eq_true _ _).mp h).1

/-- `strrchr (filename, '/')`: the basename part after the last slash
(the whole name when there is no slash). -/
def basenameOf (f : List Char) : List Char :=
  (f.reverse.takeWhile (fun c => c != '/')).reverse

/-- `nms_keyfile_nmmeta_check_filename`: reject unless the basename is
longer than the suffix, ends in the suffix, and what precedes the
suffix is a 36-character normalized UUID; on success return the
basename (the code returns the `filename` pointer and a uuid length
of 36). -/
def nms_keyfile_nmmeta_check_filename (filename : List Char) : Option (List Char) :=
  if (basenameOf filename).length ≤ nmmetaSuffix.length then none
  else if (basenameOf filename).drop ((basenameOf filename).length - nmmetaSuffix.length)
      ≠ nmmetaSuffix then none
  else if (basenameOf filename).length - nmmetaSuffix.length ≠ 36 then none
  else if !nm_uuid_is_normalized ((basenameOf filename).take 36) then none
  else some (basenameOf filename)

/-- C8 (amended): the sidecar filename validation accepts exactly the
filenames whose basename has the shape
`<36-char normalized uuid><fixed nmmeta suffix>`; a trailing `~` temp
marker is NOT accepted: such names are rejected like every other
shape. -/
theorem nmmeta_check_filename_exact (filename : List Char) :
    (nms_keyfile_nmmeta_check_filename filename).isSome = true
      ↔ ∃ u : List Char, nm_uuid_is_normalized u = true
          ∧ basenameOf filename = u ++ nmmetaSuffix := by
  constructor
  · intro h
    unfold nms_keyfile_nmmeta_check_filename at h
    split at h
    · exact absurd h (by simp)
    next h1 =>
      split at h
      · exact absurd h (by simp)
      next h2 =>
        split at h
        · exact absurd h (by simp)
        next h3 =>
          split at h
          · exact absurd h (by simp)
          next h4 =>
            refine ⟨(basenameOf filename).take 36, ?_, ?_⟩
            · cases hb : nm_uuid_is_normalized ((basenameOf filename).take 36) with
              | true => rfl
              | false => exact absurd (by rw [hb]; rfl) h4
            · have h2' := not_not.mp h2
              have h3' := not_not.mp h3
              conv_lhs => rw [← List.take_append_drop
                ((basenameOf filename).length - nmmetaSuffix.length) (basenameOf filename)]
              rw [h2', h3']
  · rintro ⟨u, hnorm, heq⟩
    have hu : u.length = 36 := nm_uuid_is_normalized_length u hnorm
    have hsl : nmmetaSuffix.length = 7 := rfl
    have hdrop : (u ++ nmmetaSuffix).drop ((u ++ nmmetaSuffix).length - nmmetaSuffix.length)
        = nmmetaSuffix := by
      have hk : (u ++ nmmetaSuffix).length - nmmetaSuffix.length = u.length := by
        rw [List.length_append]
        omega
      rw [hk, List.drop_left]
    have hlen2 : (u ++ nmmetaSuffix).length - nmmetaSuffix.length = 36 := by
      rw [List.length_append, hu, hsl]
    have htake : (u ++ nmmetaSuffix).take 36 = u := by
      rw [← hu, List.take_left]
    have hgt : ¬((u ++ nmmetaSuffix).length ≤ nmmetaSuffix.length) := by
      rw [List.length_append, hu, hsl]
      omega
    unfold nms_keyfile_nmmeta_check_filename
    rw [heq, if_neg hgt, if_neg (fun hc => hc hdrop), if_neg (fun hc => hc hlen2),
      if_neg (by simp [htake, hnorm])]
    rfl

def sampleUuidChars : List Char := "aaaaaaaa-bbbb-4ccc-8ddd-eeeeeeeeeeee".data

/-- Counterexample for C8 as stated: for a perfectly normalized UUID,
the temp-marker name `<uuid>.nmmeta~` is REJECTED by the filename
validation (while the claim says the trailing `~` is accepted); the
same name without the `~` is accepted. -/
theorem nmmeta_check_filename_tilde_rejected :
    nm_uuid_is_normalized sampleUuidChars = true
      ∧ nms_keyfile_nmmeta_check_filename (sampleUuidChars ++ nmmetaSuffix ++ ['~']) = none
      ∧ (nms_keyfile_nmmeta_check_filename (sampleUuidChars ++ nmmetaSuffix)).isSome = true :=
  ⟨by decide, by decide, by decide⟩

/-! ### nmmeta sidecar codec (`nms_keyfile_nmmeta_read` /
`nms_keyfile_nmmeta_write` in `nms-keyfile-utils.c`)

One directory is modelled as a list of named nodes; a node is a regular
file (owner, permission bits, parsed keyfile entries — the glib keyfile
codec is the external collaborator, so contents are kept parsed) or a
symbolic link (owner, target).  Names are stored relative to the
directory; the code's `g_build_filename (dirname, filename)` prefix is
dropped. -/

inductive FNode
  | reg (uid : Nat) (perm : Nat) (entries : List ((String × String) × String))
  | symlink (uid : Nat) (target : String)
deriving DecidableEq, Repr

abbrev Dir := List (String × FNode)

def dirLookup (name : String) (d : Dir) : Option FNode :=
  (d.find? (fun ent => ent.1 == name)).map (fun ent => ent.2)

def dirDel (name : String) (d : Dir) : Dir := d.filter (fun ent => ent.1 != name)

def dirAdd (name : String) (node : FNode) (d : Dir) : Dir := (name, node) :: dirDel name d

theorem dirLookup_dirDel_self (name : String) (d : Dir) :
    dirLookup name (dirDel name d) = none := by
  unfold dirLookup dirDel
  rw [find?_filter_ne_key]
  rfl

/-- The `lstat` result of a node: POSIX type bits plus permission
bits (a symlink reports `S_IFLNK | 0777`). -/
def statOfNode : FNode → StatSt
  | .reg uid perm _ => ⟨0o100000 ||| perm, uid⟩
  | .symlink uid _ => ⟨0o120000 ||| 0o777, uid⟩

/-- `g_key_file_get_string (kf, group, key)` over parsed entries. -/
def kfGetString (entries : List ((String × String) × String)) (g k : String) :
    Option String :=
  (entries.find? (fun ent => ent.1 == (g, k))).map (fun ent => ent.2)

def nmmetaSuffixStr : String := ".nmmeta"

/-- `nms_keyfile_nmmeta_filename` (directory-relative part; the code
prepends `dirname`). -/
def nms_keyfile_nmmeta_filename (uuid : String) (temporary : Bool) : String :=
  uuid ++ nmmetaSuffixStr ++ (if temporary then "~" else "")

structure NmmetaRecord where
  uuid : String
  loaded_path : Option String
  shadowed_storage : Option String
deriving DecidableEq, Repr

/-- `nm_utils_read_link_absolute`: the symlink target, made absolute
relative to the directory when it is relative. -/
def nm_utils_read_link_absolute (dirname target : String) : String :=
  match target.data with
  | '/' :: _ => target
  | _ => dirname ++ "/" ++ target

/-- `nms_keyfile_nmmeta_read` over the directory model: validate the
filename shape, `lstat` the file, validate ownership/permissions
(NMMETA file type), then read a regular file as a keyfile (its `uuid`
field must equal the filename-embedded uuid; a record carrying neither
`loaded-path` nor `shadowed-storage` is treated as absent) or a
symlink as a bare loaded path. -/
def nms_keyfile_nmmeta_read (no_owner_check : Bool) (nm_uid : Nat) (dirname : String)
    (d : Dir) (filename : String) : Option NmmetaRecord :=
  match nms_keyfile_nmmeta_check_filename filename.data with
  | none => none
  | some fn =>
    let uuid : String := ⟨fn.take 36⟩
    match dirLookup filename d with
    | none => none
    | some node =>
      if !nms_keyfile_utils_check_file_permissions_stat .nmmeta no_owner_check nm_uid
          (statOfNode node) then none
      else
        match node with
        | .reg _ _ entries =>
          match kfGetString entries "nmmeta" "uuid" with
          | none => none
          | some v_uuid =>
            if v_uuid != uuid then none
            else
              match kfGetString entries "nmmeta" "loaded-path",
                    kfGetString entries "nmmeta" "shadowed-storage" with
              | none, none => none
              | lp, sh => some ⟨uuid, lp, sh⟩
        | .symlink _ target =>
          some ⟨uuid, some (nm_utils_read_link_absolute dirname target), none⟩

structure NmmetaIo where
  errno_val : Int
  set_contents_ok : Bool
  symlink_ok : Bool
  rename_ok : Bool
deriving DecidableEq, Repr

/-- Modelled from the spec: `nm_utils_file_is_in_path` (glib-aux,
outside the provided sources): when `path` lies inside `dirname`, its
part relative to the directory, else none. -/
def nm_utils_file_is_in_path (path dirname : String) : Option String :=
  if path.data.take (dirname ++ "/").data.length = (dirname ++ "/").data
  then some (String.mk (path.data.drop (dirname ++ "/").data.length))
  else none

/-- `nms_keyfile_nmmeta_write` over the directory model.  Returns the
directory after the call, the signed errno result (0 = success;
injected I/O failures carry `-io.errno_val`), and the
`out_full_filename` the code reports (directory-relative).  A
`loaded_path` of none means "delete the record": strip the `~` and
unlink that name, ENOENT not being an error (removal from the pure
directory map cannot fail otherwise). -/
def nms_keyfile_nmmeta_write (io : NmmetaIo) (creator_uid : Nat) (dirname : String)
    (d : Dir) (uuid : String) (loaded_path : Option String)
    (loaded_path_allow_relative : Bool) (shadowed_storage : Option String) :
    Dir × Int × String :=
  let tmpName := nms_keyfile_nmmeta_filename uuid true
  let finName := nms_keyfile_nmmeta_filename uuid false
  -- (void) unlink (full_filename_tmp);
  let d1 := dirDel tmpName d
  match loaded_path with
  | none => (dirDel finName d1, 0, finName)
  | some lp0 =>
    let lp := if loaded_path_allow_relative then
        match nm_utils_file_is_in_path lp0 dirname with
        | some f => f
        | none => lp0
      else lp0
    match shadowed_storage with
    | some sh =>
      -- a keyfile with uuid/loaded-path/shadowed-storage, written with
      -- mode 0600 straight to the final name
      if !io.set_contents_ok then (d1, -io.errno_val, tmpName)
      else
        (dirAdd finName
          (.reg creator_uid 0o600
            [(("nmmeta", "uuid"), uuid), (("nmmeta", "loaded-path"), lp),
              (("nmmeta", "shadowed-storage"), sh)]) d1, 0, finName)
    | none =>
      -- a symlink to the loaded path, created at the temp name and
      -- atomically renamed over the final name
      if !io.symlink_ok then (d1, -io.errno_val, finName)
      else
        let d2 := dirAdd tmpName (.symlink creator_uid lp) d1
        if !io.rename_ok then (dirDel tmpName d2, -io.errno_val, finName)
        else (dirAdd finName (.symlink creator_uid lp) (dirDel tmpName d2), 0, finName)

/-- A directory with no entry under the record's name reads as "not
found", whatever else it contains. -/
theorem nmmeta_read_no_entry (noc : Bool) (nm_uid : Nat) (dirname : String)
    (d : Dir) (filename : String) (h : dirLookup filename d = none) :
    nms_keyfile_nmmeta_read noc nm_uid dirname d filename = none := by
  unfold nms_keyfile_nmmeta_read
  cases hc : nms_keyfile_nmmeta_check_filename filename.data with
  | none => rfl
  | some fn =>
    dsimp only
    rw [h]

/-- C4: writing a sidecar record with `loaded_path = None` removes both
the temp and the final record name for that uuid and reports success
(0); a subsequent sidecar read for that uuid yields "not found"; and
this is indistinguishable from a sidecar that never existed: the
resulting directory is exactly the input directory with the record
names absent, and any directory with no entry under the record's name
reads as "not found" too. -/
theorem nmmeta_write_none_tombstone (io : NmmetaIo) (cuid : Nat) (noc : Bool)
    (nm_uid : Nat) (dirname : String) (d : Dir) (uuid : String) (ar : Bool) :
    (nms_keyfile_nmmeta_write io cuid dirname d uuid none ar none).2.1 = 0
    ∧ (nms_keyfile_nmmeta_write io cuid dirname d uuid none ar none).1
        = dirDel (nms_keyfile_nmmeta_filename uuid false)
            (dirDel (nms_keyfile_nmmeta_filename uuid true) d)
    ∧ nms_keyfile_nmmeta_read noc nm_uid dirname
        (nms_keyfile_nmmeta_write io cuid dirname d uuid none ar none).1
        (nms_keyfile_nmmeta_filename uuid false) = none
    ∧ (∀ d0 : Dir, dirLookup (nms_keyfile_nmmeta_filename uuid false) d0 = none →
        nms_keyfile_nmmeta_read noc nm_uid dirname d0
          (nms_keyfile_nmmeta_filename uuid false) = none) := by
  refine ⟨rfl, rfl, ?_, ?_⟩
  · exact nmmeta_read_no_entry noc nm_uid dirname _ _ (dirLookup_dirDel_self _ _)
  · intro d0 h0
    exact nmmeta_read_no_entry noc nm_uid dirname d0 _ h0

def sampleUuidStr : String := "aaaaaaaa-bbbb-4ccc-8ddd-eeeeeeeeeeee"

def sampleNmmetaIo : NmmetaIo := ⟨5, true, true, true⟩

/-- A directory holding a tombstone symlink sidecar for the sample
uuid. -/
def sampleSidecarDir : Dir :=
  [(nms_keyfile_nmmeta_filename sampleUuidStr false, .symlink 0 "/dev/null")]

/-- Witness for C4: the sample sidecar reads back before the deleting
write and reads as "not found" after it, exactly like the empty
directory. -/
theorem nmmeta_write_none_tombstone_witness :
    nms_keyfile_nmmeta_read false 0 "/run/NetworkManager" sampleSidecarDir
        (nms_keyfile_nmmeta_filename sampleUuidStr false)
        = some ⟨sampleUuidStr, some "/dev/null", none⟩
    ∧ (nms_keyfile_nmmeta_write sampleNmmetaIo 0 "/run/NetworkManager" sampleSidecarDir
        sampleUuidStr none false none).2.1 = 0
    ∧ nms_keyfile_nmmeta_read false 0 "/run/NetworkManager"
        (nms_keyfile_nmmeta_write sampleNmmetaIo 0 "/run/NetworkManager" sampleSidecarDir
          sampleUuidStr none false none).1
        (nms_keyfile_nmmeta_filename sampleUuidStr false) = none
    ∧ nms_keyfile_nmmeta_read false 0 "/run/NetworkManager" []
        (nms_keyfile_nmmeta_filename sampleUuidStr false) = none :=
  ⟨by decide,
    (nmmeta_write_none_tombstone sampleNmmetaIo 0 false 0 "/run/NetworkManager"
      sampleSidecarDir sampleUuidStr false).1,
    (nmmeta_write_none_tombstone sampleNmmetaIo 0 false 0 "/run/NetworkManager"
      sampleSidecarDir sampleUuidStr false).2.2.1,
    (nmmeta_write_none_tombstone sampleNmmetaIo 0 false 0 "/run/NetworkManager"
      sampleSidecarDir sampleUuidStr false).2.2.2 [] rfl⟩

/-! ### Netplan interface-name fixup pass
(`_fix_netplan_interface_name` in `nms-keyfile-utils.c`).  The run-time
profile directory is a list of named keyfiles (contents kept as parsed
entries, the glib keyfile codec being external; `g_key_file_save_to_file`
preserves entries).  The glob `*.nmconnection` is the suffix test on the
name. -/

abbrev Keyfile := List ((String × String) × String)

/-- `g_key_file_remove_key (kf, group, key)`. -/
def kfRemoveKey (g k : String) (kf : Keyfile) : Keyfile :=
  kf.filter (fun ent => ent.1 != (g, k))

/-- Models glib's string starts-with test (`g_str_has_` + `prefix`). -/
def gStrStartsWith (s pre : String) : Bool := s.data.take pre.data.length == pre.data

/-- `g_str_has_suffix` (the shape the `*.nmconnection` glob matches). -/
def g_str_has_suffix (s suf : String) : Bool :=
  s.data.drop (s.data.length - suf.data.length) == suf.data

theorem kfGetString_kfRemoveKey (g k : String) (kf : Keyfile) :
    kfGetString (kfRemoveKey g k kf) g k = none := by
  unfold kfGetString kfRemoveKey
  rw [find?_filter_ne_key]
  rfl

/-- The per-file body of `_fix_netplan_interface_name`: when the file
declares a `connection.interface-name` that starts with the reserved
`NM-` marker and is longer than 15 characters, remove that key and
rewrite the file; otherwise leave the file alone. -/
def fixNetplanKeyfile (kf : Keyfile) : Keyfile :=
  match kfGetString kf "connection" "interface-name" with
  | some iface =>
    if gStrStartsWith iface "NM-" && decide (iface.length > 15)
    then kfRemoveKey "connection" "interface-name" kf
    else kf
  | none => kf

/-- `_fix_netplan_interface_name` over the run-time directory listing
(with the error-free I/O behavior: every matched file is loaded and, if
changed, saved back). -/
def fix_netplan_interface_name (files : List (String × Keyfile)) :
    List (String × Keyfile) :=
  files.map (fun f =>
    if g_str_has_suffix f.1 ".nmconnection" then (f.1, fixNetplanKeyfile f.2) else f)

theorem fixNetplanKeyfile_idem (kf : Keyfile) :
    fixNetplanKeyfile (fixNetplanKeyfile kf) = fixNetplanKeyfile kf := by
  unfold fixNetplanKeyfile
  cases h : kfGetString kf "connection" "interface-name" with
  | none => simp [h]
  | some iface =>
    by_cases hc : (gStrStartsWith iface "NM-" && decide (iface.length > 15)) = true
    · simp [h, hc, kfGetString_kfRemoveKey]
    · simp [h, hc]

/-- C9: The interface-name fixup pass is idempotent: a second run over
the directory produced by a first run changes nothing, because a
rewritten file no longer carries the auto-generated interface-name key
and an untouched file did not trigger the rewrite in the first place. -/
theorem fix_netplan_interface_name_idempotent (files : List (String × Keyfile)) :
    fix_netplan_interface_name (fix_netplan_interface_name files)
      = fix_netplan_interface_name files := by
  unfold fix_netplan_interface_name
  rw [List.map_map]
  apply List.map_congr_left
  intro f _
  by_cases hs : g_str_has_suffix f.1 ".nmconnection" = true
  · simp [Function.comp, hs, fixNetplanKeyfile_idem]
  · simp [Function.comp, hs]

/-! ### VPN data items (`nm_setting_vpn_add_data_item`,
`nm_setting_vpn_remove_data_item`, `nm_setting_vpn_get_data_item` in
`nm-setting-vpn.c`).  The GLib hash tables of the setting's private
struct become association lists; the `g_return_if_fail` guards on an
empty key become early returns; the `_notify` change signal is dropped
(remove's boolean result carries the "changed" information). -/

abbrev StrDict := List (String × String)

def dictLookup (k : String) (d : StrDict) : Option String :=
  (d.find? (fun ent => ent.1 == k)).map (fun ent => ent.2)

/-- `g_hash_table_insert` (replacing any previous binding). -/
def dictInsert (k v : String) (d : StrDict) : StrDict :=
  (k, v) :: d.filter (fun ent => ent.1 != k)

/-- `g_hash_table_remove`. -/
def dictRemove (k : String) (d : StrDict) : StrDict :=
  d.filter (fun ent => ent.1 != k)

structure NMSettingVpn where
  data : StrDict
  secrets : StrDict
deriving DecidableEq, Repr

/-- `nm_setting_vpn_remove_data_item`: reject an empty key; remove the
binding, reporting whether one was found. -/
def nm_setting_vpn_remove_data_item (s : NMSettingVpn) (key : String) :
    NMSettingVpn × Bool :=
  if key = "" then (s, false)
  else if (dictLookup key s.data).isSome
  then (NMSettingVpn.mk (dictRemove key s.data) s.secrets, true)
  else (s, false)

/-- `nm_setting_vpn_add_data_item`: a NULL item means remove (checked
before the key guard, exactly as in the code); otherwise insert under a
non-empty key. -/
def nm_setting_vpn_add_data_item (s : NMSettingVpn) (key : String)
    (item : Option String) : NMSettingVpn :=
  match item with
  | none => (nm_setting_vpn_remove_data_item s key).1
  | some it =>
    if key = "" then s
    else NMSettingVpn.mk (dictInsert key it s.data) s.secrets

/-- `nm_setting_vpn_get_data_item`: reject an empty key; look the
binding up. -/
def nm_setting_vpn_get_data_item (s : NMSettingVpn) (key : String) : Option String :=
  if key = "" then none else dictLookup key s.data

theorem dictLookup_dictRemove_self (k : String) (d : StrDict) :
    dictLookup k (dictRemove k d) = none := by
  unfold dictLookup dictRemove
  rw [find?_filter_ne_key]
  rfl

/-- C10: For every VPN setting and non-empty key, adding a data item
with a NULL value is exactly `nm_setting_vpn_remove_data_item`: nothing
is added, the existing item for that key is removed, and a subsequent
`nm_setting_vpn_get_data_item` for that key returns NULL. -/
theorem add_data_item_null_removes (s : NMSettingVpn) (key : String) (h : key ≠ "") :
    nm_setting_vpn_add_data_item s key none = (nm_setting_vpn_remove_data_item s key).1
    ∧ nm_setting_vpn_get_data_item (nm_setting_vpn_add_data_item s key none) key
        = none := by
  refine ⟨rfl, ?_⟩
  unfold nm_setting_vpn_add_data_item nm_setting_vpn_remove_data_item
    nm_setting_vpn_get_data_item
  rw [if_neg h]
  by_cases hp : (dictLookup key s.data).isSome = true
  · rw [if_pos hp]
    dsimp only
    rw [if_neg h]
    exact dictLookup_dictRemove_self key s.data
  · rw [if_neg hp]
    dsimp only
    rw [if_neg h]
    cases hl : dictLookup key s.data with
    | none => rfl
    | some v => rw [hl] at hp; simp at hp

/-- Witness for C10: on a concrete setting holding `gateway`, adding
`gateway` with a NULL item leaves the setting without the key and a
lookup returns NULL. -/
theorem add_data_item_null_removes_witness :
    nm_setting_vpn_add_data_item ⟨[("gateway", "10.0.0.1")], []⟩ "gateway" none
        = (nm_setting_vpn_remove_data_item ⟨[("gateway", "10.0.0.1")], []⟩ "gateway").1
      ∧ nm_setting_vpn_get_data_item
          (nm_setting_vpn_add_data_item ⟨[("gateway", "10.0.0.1")], []⟩ "gateway" none)
          "gateway" = none :=
  add_data_item_null_removes ⟨[("gateway", "10.0.0.1")], []⟩ "gateway" (by decide)

end NMKeyfile
